import Mathlib

/-!
Shallow embedding of the TableParserApp sources (`src/App.tsx` and the
custom table components) together with theorems checking the
natural-language specification against the code.

Cells in a parsed spreadsheet row are JavaScript values of type
`string | number`; state updates and user-visible effects (alerts,
console logs, the network fetch) are made explicit.
-/

/-- A spreadsheet cell: `string | number` from the TypeScript source. -/
inductive Cell where
  | str (s : String)
  | num (n : Int)
deriving DecidableEq, Repr

/-- `cell.toString()` in the source: identity on strings, the default
textual form for numbers. -/
def Cell.toStr : Cell → String
  | .str s => s
  | .num n => toString n

/-- `10 + row[i].toString().length * 10` from `computeWidths`. -/
def charsWidth (c : Cell) : Nat :=
  10 + (Cell.toStr c).length * 10

/-- The inner loop of `computeWidths` over one row: index `i` runs over
the row; `widthArr[i]` is overwritten when absent (`!widthArr[i]`, i.e.
missing or zero) or smaller than the candidate width. -/
def mergeRow (ws : List Nat) (row : List Cell) : List Nat :=
  match ws, row with
  | ws, [] => ws
  | [], c :: cs => charsWidth c :: mergeRow [] cs
  | w :: ws, c :: cs =>
      (if w = 0 ∨ w < charsWidth c then charsWidth c else w) :: mergeRow ws cs

/-- `computeWidths` from `App.tsx` (lines 75–90): a single pass over all
rows, keeping per column the maximal `charsWidth` seen so far. -/
def computeWidths (rows : List (List Cell)) : List Nat :=
  rows.foldl mergeRow []

/-- Length of the longest row (the spec's implicit column count). -/
def maxRowLen (rows : List (List Cell)) : Nat :=
  rows.foldl (fun a r => max a r.length) 0

/-- Spec-side description of the width of column `i`: the maximum of
`charsWidth` over cells at index `i` across all rows that have one. -/
def colWidth (rows : List (List Cell)) (i : Nat) : Nat :=
  rows.foldl (fun a r => max a ((r[i]?.map charsWidth).getD 0)) 0

theorem if_zero_lt_eq_max (w c : Nat) :
    (if w = 0 ∨ w < c then c else w) = max w c := by
  by_cases h0 : w = 0
  · simp [h0]
  · by_cases hlt : w < c
    · simp [hlt, Nat.max_eq_right (Nat.le_of_lt hlt)]
    · simp [h0, hlt, Nat.max_eq_left (Nat.le_of_not_lt hlt)]

theorem mergeRow_length (row : List Cell) : ∀ ws : List Nat,
    (mergeRow ws row).length = max ws.length row.length := by
  induction row with
  | nil => intro ws; simp [mergeRow]
  | cons c cs ih =>
      intro ws
      cases ws with
      | nil => simp [mergeRow, ih]
      | cons w ws => simp [mergeRow, ih, Nat.succ_max_succ]

theorem mergeRow_getD (row : List Cell) : ∀ (ws : List Nat) (i : Nat),
    ((mergeRow ws row)[i]?).getD 0 =
      max ((ws[i]?).getD 0) (((row[i]?).map charsWidth).getD 0) := by
  induction row with
  | nil => intro ws i; simp [mergeRow]
  | cons c cs ih =>
      intro ws i
      cases ws with
      | nil =>
          cases i with
          | zero => simp [mergeRow]
          | succ j => simpa [mergeRow] using ih [] j
      | cons w ws =>
          cases i with
          | zero => simp [mergeRow, if_zero_lt_eq_max]
          | succ j => simpa [mergeRow] using ih ws j

theorem computeWidths_aux_length (rows : List (List Cell)) :
    ∀ ws : List Nat,
      (rows.foldl mergeRow ws).length =
        rows.foldl (fun a r => max a r.length) ws.length := by
  induction rows with
  | nil => intro ws; rfl
  | cons r rs ih =>
      intro ws
      simp only [List.foldl_cons]
      rw [ih (mergeRow ws r), mergeRow_length r ws]

theorem computeWidths_aux_getD (rows : List (List Cell)) (i : Nat) :
    ∀ ws : List Nat,
      (((rows.foldl mergeRow ws)[i]?).getD 0) =
        rows.foldl (fun a r => max a ((r[i]?.map charsWidth).getD 0))
          ((ws[i]?).getD 0) := by
  induction rows with
  | nil => intro ws; rfl
  | cons r rs ih =>
      intro ws
      simp only [List.foldl_cons]
      rw [ih (mergeRow ws r), mergeRow_getD r ws i]

theorem computeWidths_length (rows : List (List Cell)) :
    (computeWidths rows).length = maxRowLen rows := by
  simpa [computeWidths, maxRowLen] using computeWidths_aux_length rows []

theorem computeWidths_getD (rows : List (List Cell)) (i : Nat) :
    ((computeWidths rows)[i]?).getD 0 = colWidth rows i := by
  simpa [computeWidths, colWidth] using computeWidths_aux_getD rows i []

theorem computeWidths_getElem? (rows : List (List Cell)) (i : Nat) :
    (computeWidths rows)[i]? =
      if i < maxRowLen rows then some (colWidth rows i) else none := by
  by_cases h : i < maxRowLen rows
  · have hlen : i < (computeWidths rows).length := by
      rw [computeWidths_length]; exact h
    have := computeWidths_getD rows i
    rw [List.getElem?_eq_getElem hlen] at this ⊢
    simp at this
    simp [h, this]
  · have hlen : (computeWidths rows).length ≤ i := by
      rw [computeWidths_length]; exact Nat.le_of_not_lt h
    simp [h, List.getElem?_eq_none hlen]

theorem foldl_max_le {α : Type} (f : α → Nat) (l : List α) :
    ∀ a : Nat, a ≤ l.foldl (fun b x => max b (f x)) a := by
  induction l with
  | nil => intro a; exact Nat.le_refl a
  | cons x xs ih =>
      intro a
      exact Nat.le_trans (Nat.le_max_left a (f x)) (ih (max a (f x)))

theorem mem_le_foldl_max {α : Type} (f : α → Nat) (l : List α) :
    ∀ (a : Nat) (x : α), x ∈ l → f x ≤ l.foldl (fun b y => max b (f y)) a := by
  induction l with
  | nil => intro a x hx; cases hx
  | cons y ys ih =>
      intro a x hx
      rcases List.mem_cons.mp hx with h | h
      · subst h
        exact Nat.le_trans (Nat.le_max_right a (f x)) (foldl_max_le f ys _)
      · exact ih (max a (f y)) x h

/-- Example workbook rows from the spec: `[["A","B"],["x","yy"]]`. -/
def demoRows : List (List Cell) :=
  [[Cell.str "A", Cell.str "B"], [Cell.str "x", Cell.str "yy"]]

/-- C1: `computeWidths` returns one width per column of the longest row;
the entry at column `i` equals the per-column maximum of
`10 + (stringified length)·10` over the rows that have a cell at index
`i` (hence is at least each such row's value, and rows shorter than `i`
do not affect it). -/
theorem computeWidths_spec (rows : List (List Cell)) :
    (computeWidths rows).length = maxRowLen rows ∧
    (∀ i, i < maxRowLen rows →
      (computeWidths rows)[i]? = some (colWidth rows i)) ∧
    (∀ row, row ∈ rows → ∀ i, i < row.length →
      10 + (Cell.toStr ((row[i]?).getD (Cell.str ""))).length * 10 ≤
        ((computeWidths rows)[i]?).getD 0) := by
  refine ⟨computeWidths_length rows, ?_, ?_⟩
  · intro i hi
    rw [computeWidths_getElem?]
    simp [hi]
  · intro row hrow i hi
    have hle := mem_le_foldl_max (fun r => ((r[i]?.map charsWidth).getD 0))
      rows 0 row hrow
    have hcell : ((row[i]?.map charsWidth).getD 0) =
        10 + (Cell.toStr ((row[i]?).getD (Cell.str ""))).length * 10 := by
      rw [List.getElem?_eq_getElem hi]
      simp [charsWidth]
    rw [computeWidths_getD, colWidth, ← hcell]
    exact hle

theorem computeWidths_spec_witness :
    (computeWidths demoRows).length = maxRowLen demoRows ∧
    (computeWidths demoRows)[1]? = some (colWidth demoRows 1) ∧
    10 + (Cell.toStr ((([Cell.str "x", Cell.str "yy"])[1]?).getD (Cell.str ""))).length * 10 ≤
      ((computeWidths demoRows)[1]?).getD 0 :=
  ⟨(computeWidths_spec demoRows).1,
   (computeWidths_spec demoRows).2.1 1 (by decide),
   (computeWidths_spec demoRows).2.2 [Cell.str "x", Cell.str "yy"] (by decide) 1 (by decide)⟩

theorem foldl_max_perm {α : Type} (f : α → Nat) {l l' : List α}
    (h : l.Perm l') :
    ∀ a : Nat, l.foldl (fun b x => max b (f x)) a =
      l'.foldl (fun b x => max b (f x)) a := by
  induction h with
  | nil => intro a; rfl
  | cons x _ ih => intro a; simpa using ih (max a (f x))
  | swap x y l => intro a; simp only [List.foldl_cons]; rw [sup_right_comm]
  | trans _ _ ih1 ih2 => intro a; rw [ih1 a, ih2 a]

theorem maxRowLen_perm {rows rows' : List (List Cell)}
    (h : rows.Perm rows') : maxRowLen rows = maxRowLen rows' := by
  have := foldl_max_perm (fun r : List Cell => r.length) h 0
  simpa [maxRowLen] using this

theorem colWidth_perm {rows rows' : List (List Cell)}
    (h : rows.Perm rows') (i : Nat) : colWidth rows i = colWidth rows' i := by
  have := foldl_max_perm (fun r : List Cell => ((r[i]?.map charsWidth).getD 0)) h 0
  simpa [colWidth] using this

/-- C9: `computeWidths` is invariant under permutation of its input
rows: the per-column maximum does not depend on row order. -/
theorem computeWidths_perm (rows rows' : List (List Cell))
    (h : rows.Perm rows') : computeWidths rows = computeWidths rows' := by
  apply List.ext_getElem?
  intro i
  rw [computeWidths_getElem?, computeWidths_getElem?, maxRowLen_perm h,
    colWidth_perm h i]

theorem computeWidths_perm_witness :
    computeWidths demoRows =
      computeWidths [[Cell.str "x", Cell.str "yy"], [Cell.str "A", Cell.str "B"]] :=
  computeWidths_perm demoRows
    [[Cell.str "x", Cell.str "yy"], [Cell.str "A", Cell.str "B"]] (by decide)

/-- The `AuthState` enumeration from `App.tsx`. -/
inductive AuthState where
  | PENDING
  | NOT_SUPPORTED
  | AUTHENTICATED
  | UNAUTHENTICATED
deriving DecidableEq, Repr

/-- Observable effects of the app code: console logging, user-facing
modal alerts, and the network fetch. -/
inductive Effect where
  | log (msg : String)
  | logWarn (msg : String)
  | logError (msg : String)
  | alert (title msg : String)
  | fetchUrl (url : String)
deriving DecidableEq, Repr

/-- Result object of `ReactNativeBiometrics.isSensorAvailable()`. -/
structure SensorResult where
  biometryType : String
  available : Bool
deriving DecidableEq, Repr

/-- Result object of `ReactNativeBiometrics.simplePrompt(...)`. -/
structure PromptResult where
  success : Bool
deriving DecidableEq, Repr

/-- Whether a list of effects contains a user-facing alert. -/
def hasAlert (es : List Effect) : Bool :=
  es.any fun e =>
    match e with
    | Effect.alert _ _ => true
    | _ => false

/-- `isBiometryAvailable` from `App.tsx` (lines 34–45): the underlying
platform call either resolves to a `SensorResult` or throws; a throw is
caught, logged with `console.warn`, and turned into `false`. Returns the
boolean result together with the emitted effects. -/
def isBiometryAvailable (res : Except String SensorResult) :
    Bool × List Effect :=
  match res with
  | Except.ok r =>
      (r.available,
       [Effect.log ("Biometry check | Available: " ++ toString r.available
          ++ " Type: " ++ r.biometryType)])
  | Except.error err =>
      (false, [Effect.logWarn ("Biometry check failed: " ++ err)])

/-- `promptBiometry` from `App.tsx` (lines 50–58): the platform prompt
either resolves to a `PromptResult` or throws; a throw is caught, logged
with `console.warn`, and turned into `false`. -/
def promptBiometry (res : Except String PromptResult) :
    Bool × List Effect :=
  match res with
  | Except.ok r => (r.success, [])
  | Except.error err =>
      (false, [Effect.logWarn ("Biometry prompt failed: " ++ err)])

/-- `tryToAuthenticate` from `App.tsx` (lines 63–68). The two `Except`
arguments are the outcomes of the two platform calls. Returns the new
auth state, whether the biometric prompt was invoked, and the effects. -/
def tryToAuthenticate (sensor : Except String SensorResult)
    (prompt : Except String PromptResult) :
    AuthState × Bool × List Effect :=
  let a := isBiometryAvailable sensor
  if a.1 then
    let p := promptBiometry prompt
    ((if p.1 then AuthState.AUTHENTICATED else AuthState.UNAUTHENTICATED),
     true, a.2 ++ p.2)
  else
    (AuthState.NOT_SUPPORTED, false, a.2)

/-- C4: whenever the sensor-availability check yields `false` (either
because the platform reported the sensor unavailable or because the call
failed), `tryToAuthenticate` sets the state to `NOT_SUPPORTED` and never
invokes the biometric prompt, whatever the prompt would have returned. -/
theorem tryToAuthenticate_not_supported
    (sensor : Except String SensorResult)
    (prompt : Except String PromptResult)
    (h : (isBiometryAvailable sensor).1 = false) :
    (tryToAuthenticate sensor prompt).1 = AuthState.NOT_SUPPORTED ∧
    (tryToAuthenticate sensor prompt).2.1 = false := by
  simp [tryToAuthenticate, h]

theorem tryToAuthenticate_not_supported_witness :
    (isBiometryAvailable (Except.error "boom")).1 = false ∧
    (tryToAuthenticate (Except.error "boom")
        (Except.ok { success := true })).1 = AuthState.NOT_SUPPORTED ∧
    (tryToAuthenticate (Except.error "boom")
        (Except.ok { success := true })).2.1 = false :=
  ⟨rfl,
   tryToAuthenticate_not_supported (Except.error "boom")
     (Except.ok { success := true }) rfl⟩

/-- C5: whenever the sensor-availability check yields `true`, the prompt
is invoked and the resulting state is `AUTHENTICATED` exactly when the
prompt yields success, and `UNAUTHENTICATED` exactly when it yields
failure (including a prompt call that throws, which is caught and
treated as failure). -/
theorem tryToAuthenticate_available
    (sensor : Except String SensorResult)
    (prompt : Except String PromptResult)
    (h : (isBiometryAvailable sensor).1 = true) :
    (tryToAuthenticate sensor prompt).2.1 = true ∧
    ((tryToAuthenticate sensor prompt).1 = AuthState.AUTHENTICATED ↔
      (promptBiometry prompt).1 = true) ∧
    ((tryToAuthenticate sensor prompt).1 = AuthState.UNAUTHENTICATED ↔
      (promptBiometry prompt).1 = false) := by
  cases hp : (promptBiometry prompt).1 <;>
    simp [tryToAuthenticate, h, hp]

theorem tryToAuthenticate_available_witness :
    (isBiometryAvailable
        (Except.ok { biometryType := "TouchID", available := true })).1 = true ∧
    (tryToAuthenticate
        (Except.ok { biometryType := "TouchID", available := true })
        (Except.error "cancelled")).2.1 = true ∧
    ((tryToAuthenticate
        (Except.ok { biometryType := "TouchID", available := true })
        (Except.error "cancelled")).1 = AuthState.UNAUTHENTICATED ↔
      (promptBiometry (Except.error "cancelled")).1 = false) :=
  ⟨rfl,
   (tryToAuthenticate_available
      (Except.ok { biometryType := "TouchID", available := true })
      (Except.error "cancelled") rfl).1,
   (tryToAuthenticate_available
      (Except.ok { biometryType := "TouchID", available := true })
      (Except.error "cancelled") rfl).2.2⟩

/-- C8: a failing platform call is caught by `isBiometryAvailable` and
by `promptBiometry`; each logs a warning and returns `false`, and no run
of the auth path ever produces a user-facing alert. -/
theorem auth_failures_no_alert :
    ∀ err : String,
      ((isBiometryAvailable (Except.error err)).1 = false ∧
       (isBiometryAvailable (Except.error err)).2 =
         [Effect.logWarn ("Biometry check failed: " ++ err)]) ∧
      ((promptBiometry (Except.error err)).1 = false ∧
       (promptBiometry (Except.error err)).2 =
         [Effect.logWarn ("Biometry prompt failed: " ++ err)]) ∧
      (∀ (sensor : Except String SensorResult)
         (prompt : Except String PromptResult),
        hasAlert (tryToAuthenticate sensor prompt).2.2 = false) := by
  intro err
  refine ⟨⟨rfl, rfl⟩, ⟨rfl, rfl⟩, ?_⟩
  intro sensor prompt
  cases sensor <;> cases prompt <;>
    simp [tryToAuthenticate, isBiometryAvailable, promptBiometry, hasAlert] <;>
    split <;> simp [hasAlert]

/-- The per-sheet record stored in `tableData`. -/
structure SheetData where
  widthArr : List Nat
  rows : List (List Cell)
deriving DecidableEq, Repr

/-- The component's state: `authenticated`, `tableData` (a JavaScript
object, modelled as an ordered association list of sheet name to sheet
record) and `loading`. -/
structure AppState where
  authenticated : AuthState
  tableData : List (String × SheetData)
  loading : Bool
deriving DecidableEq, Repr

/-- A decoded workbook: sheet names with their rows, in object-key
order. -/
abbrev Workbook := List (String × List (List Cell))

/-- The hardcoded Google Drive download URL from `fetchTable`. -/
def downloadUrl : String :=
  "https://drive.google.com/uc?export=download&id=1O6bmi4TqBhYl7sMn1gBT2gM4rKf8paFf"

/-- The `for (let sheetName in worksheet.Sheets)` loop of `fetchTable`:
each iteration calls `setTableData` with an object literal holding only
the current sheet, replacing the whole mapping. Returns the state after
the loop and the list of states after each `setTableData` call. -/
def runSheets (s : AppState) (sheets : Workbook) :
    AppState × List AppState :=
  match sheets with
  | [] => (s, [])
  | (sheetName, rows) :: rest =>
      let s' := { s with
        tableData := [(sheetName, { widthArr := computeWidths rows, rows := rows })] }
      let r := runSheets s' rest
      (r.1, s' :: r.2)

/-- `fetchTable` from `App.tsx` (lines 96–131). The `net` argument is
the combined outcome of the network fetch plus workbook decode (both
inside the same `try`): either a decoded workbook or a thrown error.
Returns the final state, the intermediate states after each state
update, and the emitted effects. -/
def fetchTable (s : AppState) (net : Except String Workbook) :
    AppState × List AppState × List Effect :=
  if s.authenticated ≠ AuthState.AUTHENTICATED ∧
      s.authenticated ≠ AuthState.NOT_SUPPORTED then
    (s, [], [Effect.alert "Auth error" "Seems like you are not authenticated!"])
  else
    let s1 := { s with loading := true }
    let s2 := { s1 with tableData := [] }
    match net with
    | Except.ok wb =>
        let r := runSheets s2 wb
        let sEnd := { r.1 with loading := false }
        (sEnd, s1 :: s2 :: (r.2 ++ [sEnd]), [Effect.fetchUrl downloadUrl])
    | Except.error err =>
        let sEnd := { s2 with loading := false }
        (sEnd, [s1, s2, sEnd],
         [Effect.fetchUrl downloadUrl,
          Effect.logError err,
          Effect.alert "Při načítání tabulky se vyskytla chyba"
            ("Chyba: " ++ err)])

theorem runSheets_trace_singleton (sheets : Workbook) :
    ∀ s : AppState, ∀ st ∈ (runSheets s sheets).2, st.tableData.length = 1 := by
  induction sheets with
  | nil => intro s st hst; simp [runSheets] at hst
  | cons p rest ih =>
      intro s st hst
      obtain ⟨sheetName, rows⟩ := p
      simp only [runSheets, List.mem_cons] at hst
      rcases hst with h | h
      · subst h; rfl
      · exact ih _ st h

theorem runSheets_final_last (sheets : Workbook) :
    ∀ (s : AppState) (sheetName : String) (rows : List (List Cell)),
      sheets.getLast? = some (sheetName, rows) →
      (runSheets s sheets).1.tableData =
        [(sheetName, { widthArr := computeWidths rows, rows := rows })] := by
  induction sheets with
  | nil => intro s sheetName rows h; simp at h
  | cons p rest ih =>
      intro s sheetName rows h
      obtain ⟨n, r⟩ := p
      cases rest with
      | nil =>
          simp at h
          simp [runSheets, h.1, h.2]
      | cons q rest' =>
          rw [List.getLast?_cons_cons] at h
          simpa [runSheets] using ih _ sheetName rows h

theorem runSheets_final_nil (s : AppState) : (runSheets s []).1 = s := rfl

theorem runSheets_final_mem (sheets : Workbook) :
    ∀ s : AppState,
      (runSheets s sheets).1 = s ∨
      (runSheets s sheets).1 ∈ (runSheets s sheets).2 := by
  induction sheets with
  | nil => intro s; left; rfl
  | cons p rest ih =>
      intro s
      obtain ⟨n, r⟩ := p
      right
      simp only [runSheets, List.mem_cons]
      rcases ih { s with
          tableData := [(n, { widthArr := computeWidths r, rows := r })] } with
        h | h
      · left; exact h
      · right; exact h

/-- Initial-style states used to instantiate the `fetchTable` theorems. -/
def pendingState : AppState :=
  { authenticated := AuthState.PENDING, tableData := [], loading := false }

def authedState : AppState :=
  { authenticated := AuthState.AUTHENTICATED, tableData := [], loading := false }

/-- C2: once past the auth guard, every per-sheet `setTableData` call in
`fetchTable` replaces the whole mapping, so every intermediate state
holds at most one sheet (exactly one after each per-sheet update), and
after the loop `tableData` holds exactly the last-processed sheet. -/
theorem fetchTable_single_sheet (s : AppState) (wb : Workbook)
    (hauth : s.authenticated = AuthState.AUTHENTICATED ∨
      s.authenticated = AuthState.NOT_SUPPORTED)
    (hinv : s.tableData.length ≤ 1) :
    (∀ st ∈ (fetchTable s (Except.ok wb)).2.1, st.tableData.length ≤ 1) ∧
    (∀ (sheetName : String) (rows : List (List Cell)),
      wb.getLast? = some (sheetName, rows) →
      (fetchTable s (Except.ok wb)).1.tableData =
        [(sheetName, { widthArr := computeWidths rows, rows := rows })]) := by
  have hcond : ¬(s.authenticated ≠ AuthState.AUTHENTICATED ∧
      s.authenticated ≠ AuthState.NOT_SUPPORTED) := by
    rcases hauth with h | h <;> simp [h]
  constructor
  · intro st hst
    simp only [fetchTable, if_neg hcond, List.mem_cons, List.mem_append,
      List.mem_singleton] at hst
    rcases hst with h | h | h | h
    · subst h; exact hinv
    · subst h; exact Nat.zero_le 1
    · exact Nat.le_of_eq (runSheets_trace_singleton wb _ st h)
    · rcases h with h | h
      · subst h
        rcases runSheets_final_mem wb
            { authenticated := s.authenticated, tableData := [], loading := true }
          with h | h
        · simp [h]
        · have h1 := runSheets_trace_singleton wb _ _ h
          simp [h1]
      · cases h
  · intro sheetName rows hlast
    simp only [fetchTable, if_neg hcond]
    exact runSheets_final_last wb _ sheetName rows hlast

theorem fetchTable_single_sheet_witness :
    (∀ st ∈ (fetchTable authedState
        (Except.ok [("Sheet1", demoRows)])).2.1, st.tableData.length ≤ 1) ∧
    (fetchTable authedState (Except.ok [("Sheet1", demoRows)])).1.tableData =
      [("Sheet1", { widthArr := computeWidths demoRows, rows := demoRows })] :=
  ⟨(fetchTable_single_sheet authedState [("Sheet1", demoRows)]
      (Or.inl rfl) (by decide)).1,
   (fetchTable_single_sheet authedState [("Sheet1", demoRows)]
      (Or.inl rfl) (by decide)).2 "Sheet1" demoRows rfl⟩

/-- C3: a `fetchTable` call in state `PENDING` or `UNAUTHENTICATED`
shows the auth alert and performs no network fetch; conversely the fetch
is performed exactly when the state is `AUTHENTICATED` or
`NOT_SUPPORTED`. -/
theorem fetchTable_guard (s : AppState) (net : Except String Workbook) :
    ((s.authenticated = AuthState.PENDING ∨
        s.authenticated = AuthState.UNAUTHENTICATED) →
      Effect.alert "Auth error" "Seems like you are not authenticated!" ∈
        (fetchTable s net).2.2 ∧
      Effect.fetchUrl downloadUrl ∉ (fetchTable s net).2.2) ∧
    (Effect.fetchUrl downloadUrl ∈ (fetchTable s net).2.2 ↔
      (s.authenticated = AuthState.AUTHENTICATED ∨
        s.authenticated = AuthState.NOT_SUPPORTED)) := by
  cases h : s.authenticated <;> cases net <;> simp [fetchTable, h]

theorem fetchTable_guard_witness :
    Effect.alert "Auth error" "Seems like you are not authenticated!" ∈
      (fetchTable pendingState (Except.error "network down")).2.2 ∧
    Effect.fetchUrl downloadUrl ∉
      (fetchTable pendingState (Except.error "network down")).2.2 :=
  (fetchTable_guard pendingState (Except.error "network down")).1 (Or.inl rfl)

/-- C6: past the auth guard, a fetch (or decode) failure leaves
`tableData` empty — it was cleared right after `loading` was set and is
never repopulated — sets `loading` back to `false`, and surfaces the
error as an alert. -/
theorem fetchTable_network_failure (s : AppState) (err : String)
    (hauth : s.authenticated = AuthState.AUTHENTICATED ∨
      s.authenticated = AuthState.NOT_SUPPORTED) :
    (fetchTable s (Except.error err)).1.tableData = [] ∧
    (fetchTable s (Except.error err)).1.loading = false ∧
    (fetchTable s (Except.error err)).2.1.head? =
      some { s with loading := true } ∧
    Effect.alert "Při načítání tabulky se vyskytla chyba" ("Chyba: " ++ err)
      ∈ (fetchTable s (Except.error err)).2.2 := by
  rcases hauth with h | h <;> simp [fetchTable, h]

theorem fetchTable_network_failure_witness :
    (fetchTable authedState (Except.error "timeout")).1.tableData = [] ∧
    (fetchTable authedState (Except.error "timeout")).1.loading = false ∧
    (fetchTable authedState (Except.error "timeout")).2.1.head? =
      some { authedState with loading := true } ∧
    Effect.alert "Při načítání tabulky se vyskytla chyba" "Chyba: timeout"
      ∈ (fetchTable authedState (Except.error "timeout")).2.2 :=
  fetchTable_network_failure authedState "timeout" (Or.inl rfl)

/-- C10: a `fetchTable` call rejected by the auth guard mutates no
state: the final state is exactly the initial one (so `loading` and
`tableData` are untouched) and no intermediate state update happens. -/
theorem fetchTable_rejected_frame (s : AppState) (net : Except String Workbook)
    (h1 : s.authenticated ≠ AuthState.AUTHENTICATED)
    (h2 : s.authenticated ≠ AuthState.NOT_SUPPORTED) :
    (fetchTable s net).1 = s ∧ (fetchTable s net).2.1 = [] := by
  simp [fetchTable, h1, h2]

theorem fetchTable_rejected_frame_witness :
    (fetchTable pendingState (Except.ok [("Sheet1", demoRows)])).1 =
      pendingState ∧
    (fetchTable pendingState (Except.ok [("Sheet1", demoRows)])).2.1 = [] :=
  fetchTable_rejected_frame pendingState (Except.ok [("Sheet1", demoRows)])
    (by decide) (by decide)

/-- Props of one rendered `Td` cell: the `width` passed from
`widthArr[k]` (absent when the index is out of range), the `first` flag
(`k === 0`), and the cell value shown as its text child. -/
structure TdProps where
  width : Option Nat
  first : Bool
  value : Cell
deriving DecidableEq, Repr

/-- One rendered `Tr`: `row.map((value, k) => <Td width={widthArr[k]}
first={k === 0}>{value}</Td>)` from the `App` component. -/
def renderRow (widthArr : List Nat) (row : List Cell) : List TdProps :=
  row.enum.map fun p =>
    { width := widthArr[p.1]?, first := p.1 == 0, value := p.2 }

/-- The header table of the `App` component: built from the original row
at index 0 (`tableData[sheetName].rows[0]`); `none` when there is no
row 0 (in the source this access would throw). -/
def renderHeader (sd : SheetData) : Option (List TdProps) :=
  (sd.rows[0]?).map (renderRow sd.widthArr)

/-- The data-rows table of the `App` component:
`rows.map((row, j) => { if (j === 0 || row.length === 0) return; ... })`
— entries for which the callback returns `undefined` render nothing, so
the rendered list is the `filterMap`. -/
def renderDataRows (sd : SheetData) : List (List TdProps) :=
  sd.rows.enum.filterMap fun p =>
    if p.1 = 0 ∨ p.2.length = 0 then none
    else some (renderRow sd.widthArr p.2)

theorem filterMap_skip {α β : Type} (c : α → Prop) [DecidablePred c]
    (g : α → β) (l : List α) :
    (l.filterMap fun a => if c a then none else some (g a)) =
      (l.filter fun a => decide ¬ c a).map g := by
  induction l with
  | nil => rfl
  | cons a l ih => by_cases h : c a <;> simp [h, ih]

/-- C7: when rendering a sheet, the data-rows table contains exactly the
rows whose index is not 0 and whose length is non-zero, in order, and
the header table is built from the original row at index 0. -/
theorem render_skips_header_and_empty (sd : SheetData) :
    renderDataRows sd =
      ((sd.rows.enum.filter fun p => decide (p.1 ≠ 0 ∧ p.2.length ≠ 0)).map
        fun p => renderRow sd.widthArr p.2) ∧
    (∀ row0, sd.rows[0]? = some row0 →
      renderHeader sd = some (renderRow sd.widthArr row0)) := by
  constructor
  · rw [renderDataRows,
      filterMap_skip (fun p : Nat × List Cell => p.1 = 0 ∨ p.2.length = 0)
        (fun p => renderRow sd.widthArr p.2) sd.rows.enum]
    congr 1
    apply List.filter_congr
    intro p _
    rw [decide_eq_decide]
    constructor
    · intro h; exact ⟨fun h0 => h (Or.inl h0), fun h0 => h (Or.inr h0)⟩
    · rintro ⟨h1, h2⟩ (h | h)
      · exact h1 h
      · exact h2 h
  · intro row0 h0
    rw [renderHeader, h0]
    rfl

theorem render_skips_header_and_empty_witness :
    renderHeader { widthArr := computeWidths demoRows, rows := demoRows } =
      some (renderRow (computeWidths demoRows) [Cell.str "A", Cell.str "B"]) :=
  (render_skips_header_and_empty
    { widthArr := computeWidths demoRows, rows := demoRows }).2
    [Cell.str "A", Cell.str "B"] rfl
